import Mathlib

/-!
Shallow embedding of the ESP32 BMP280 + MPU6050 web-server sketch
(bias calibration, sensor correction, offset persistence, LCD/IR display
arbiter).  Floating-point values are modelled exactly as rationals; the
transcendental library functions `atan2` and `sqrtf` are abstract
parameters, since the source treats them as black boxes from libm.
-/

/-- The six calibration offset globals (`accOffX` .. `gyrOffZ`). -/
structure BiasModel where
  accOffX : ℚ
  accOffY : ℚ
  accOffZ : ℚ
  gyrOffX : ℚ
  gyrOffY : ℚ
  gyrOffZ : ℚ
deriving DecidableEq, Repr

/-- Compile-time default offsets (initializers of the six globals). -/
def defaultBias : BiasModel :=
  { accOffX := 0.130075, accOffY := -0.001063, accOffZ := -0.053148,
    gyrOffX := 3.4171, gyrOffY := 3.6740, gyrOffZ := 3.6400 }

/-- The `"mpu"` namespace of the Preferences key/value store: the seven keys
the sketch ever touches, each either present with a value or absent. -/
structure Store where
  ax : Option ℚ
  ay : Option ℚ
  az : Option ℚ
  gx : Option ℚ
  gy : Option ℚ
  gz : Option ℚ
  ok : Option Bool
deriving DecidableEq, Repr

/-- A never-written store: every key absent (first-boot state). -/
def emptyStore : Store :=
  { ax := none, ay := none, az := none, gx := none, gy := none, gz := none, ok := none }

/-- One operation issued against the Preferences API. -/
inductive PrefOp where
  | beginNs (ns : String) (readOnly : Bool)
  | putFloat (key : String) (v : ℚ)
  | putBool (key : String) (v : Bool)
  | endNs
deriving DecidableEq, Repr

/-- Effect of a single Preferences operation on the `"mpu"` store. -/
def applyPrefOp (s : Store) : PrefOp → Store
  | .beginNs _ _ => s
  | .endNs => s
  | .putFloat k v =>
      if k = "ax" then { s with ax := some v }
      else if k = "ay" then { s with ay := some v }
      else if k = "az" then { s with az := some v }
      else if k = "gx" then { s with gx := some v }
      else if k = "gy" then { s with gy := some v }
      else if k = "gz" then { s with gz := some v }
      else s
  | .putBool k v =>
      if k = "ok" then { s with ok := some v } else s

/-- The mutable globals the handlers touch: the six offsets, the
`offsetsLoaded` flag and the durable store. -/
structure GlobalState where
  bias : BiasModel
  offsetsLoaded : Bool
  store : Store
deriving DecidableEq, Repr

/-- State of the globals at boot, over a given durable store. -/
def bootState (s : Store) : GlobalState :=
  { bias := defaultBias, offsetsLoaded := false, store := s }

/-- `saveOffsetsToPrefs`: the exact sequence of Preferences operations it
issues, in program order. -/
def saveOffsetsTrace (b : BiasModel) : List PrefOp :=
  [ PrefOp.beginNs "mpu" false,
    PrefOp.putFloat "ax" b.accOffX,
    PrefOp.putFloat "ay" b.accOffY,
    PrefOp.putFloat "az" b.accOffZ,
    PrefOp.putFloat "gx" b.gyrOffX,
    PrefOp.putFloat "gy" b.gyrOffY,
    PrefOp.putFloat "gz" b.gyrOffZ,
    PrefOp.putBool "ok" true,
    PrefOp.endNs ]

/-- `saveOffsetsToPrefs`: runs its operation trace against the store. -/
def saveOffsetsToPrefs (st : GlobalState) : GlobalState :=
  { st with store := (saveOffsetsTrace st.bias).foldl applyPrefOp st.store }

/-- The store keys `loadOffsetsFromPrefs` reads, in program order: the
marker first, the six floats only when the marker read true. -/
def loadReadTrace (s : Store) : List String :=
  if s.ok.getD false then ["ok", "ax", "ay", "az", "gx", "gy", "gz"] else ["ok"]

/-- `loadOffsetsFromPrefs`: reads `ok` (defaulting to false); when true,
overwrites each offset with the stored value (each `getFloat` defaulting to
the current global) and sets `offsetsLoaded`. -/
def loadOffsetsFromPrefs (st : GlobalState) : GlobalState :=
  if st.store.ok.getD false then
    { st with
      bias :=
        { accOffX := st.store.ax.getD st.bias.accOffX,
          accOffY := st.store.ay.getD st.bias.accOffY,
          accOffZ := st.store.az.getD st.bias.accOffZ,
          gyrOffX := st.store.gx.getD st.bias.gyrOffX,
          gyrOffY := st.store.gy.getD st.bias.gyrOffY,
          gyrOffZ := st.store.gz.getD st.bias.gyrOffZ },
      offsetsLoaded := true }
  else st

/-- One raw MPU sample delivered during the calibration window
(accelerometer in g, gyroscope in deg/s). -/
structure RawSample where
  ax : ℚ
  ay : ℚ
  az : ℚ
  gx : ℚ
  gy : ℚ
  gz : ℚ
deriving DecidableEq, Repr

/-- `doAveragingCalibration` over an injected sample sequence: accumulates
per-channel sums, takes means, derives the offsets (acc mean minus the
expected (0,0,+1) g, gyro mean directly) and applies the `|meanAz| < 0.5`
sanity check.  The function assigns only its locals and out-parameters, so
the ambient globals are returned untouched. -/
def doAveragingCalibration (samples : List RawSample) (st : GlobalState) :
    GlobalState × Bool × BiasModel :=
  let n : ℚ := samples.length
  let sAx := (samples.map RawSample.ax).sum
  let sAy := (samples.map RawSample.ay).sum
  let sAz := (samples.map RawSample.az).sum
  let sGx := (samples.map RawSample.gx).sum
  let sGy := (samples.map RawSample.gy).sum
  let sGz := (samples.map RawSample.gz).sum
  let meanAx := sAx / n
  let meanAy := sAy / n
  let meanAz := sAz / n
  let meanGx := sGx / n
  let meanGy := sGy / n
  let meanGz := sGz / n
  let out : BiasModel :=
    { accOffX := meanAx - 0, accOffY := meanAy - 0, accOffZ := meanAz - 1,
      gyrOffX := meanGx, gyrOffY := meanGy, gyrOffZ := meanGz }
  let ok := if |meanAz| < 1/2 then false else true
  (st, ok, out)

/-- JSON reply of the `/calibrate` endpoint: the `ok` flag, and the six
offsets only on success. -/
structure CalResponse where
  ok : Bool
  offsets : Option BiasModel
deriving DecidableEq, Repr

/-- `handleCalibrate`: runs the engine; on failure replies `ok:false`
without touching the globals, on success installs the new offsets,
persists them, and replies with them. -/
def handleCalibrate (samples : List RawSample) (st : GlobalState) :
    GlobalState × CalResponse :=
  let r := doAveragingCalibration samples st
  if r.2.1 then
    let st1 := saveOffsetsToPrefs { r.1 with bias := r.2.2 }
    (st1, { ok := true, offsets := some r.2.2 })
  else
    (r.1, { ok := false, offsets := none })

/-- Fresh MPU values at a `readSensors` call: raw accelerometer (g) and
the library's fused yaw `getAngleZ`. -/
structure MpuSample where
  accX : ℚ
  accY : ℚ
  accZ : ℚ
  angleZ : ℚ
deriving DecidableEq, Repr

/-- BMP280 collaborator state: the `bmp_ok` init flag and the values its
reads would deliver (temperature deg C, pressure Pa, altitude m). -/
structure BmpEnv where
  bmp_ok : Bool
  temperature : ℚ
  pressurePa : ℚ
  altitude : ℚ
deriving DecidableEq, Repr

/-- The telemetry snapshot struct returned by `readSensors`. -/
structure SensorReading where
  esp_ms : ℕ
  temperature : ℚ
  pressure : ℚ
  altitude : ℚ
  angleX : ℚ
  angleY : ℚ
  angleZ : ℚ
  accX : ℚ
  accY : ℚ
  accZ : ℚ
deriving DecidableEq, Repr

/-- The Arduino `PI` constant used by the degree conversion. -/
def PI_F : ℚ := 3.1415926535897932384626433832795

/-- `readSensors`: environmental fields from the BMP when `bmp_ok` (pressure
divided by 100 to hPa) else zero; bias-corrected accelerometer; tilt angles
from `atan2` in degrees; fused yaw passed through. -/
def readSensors (atan2 : ℚ → ℚ → ℚ) (sqrtf : ℚ → ℚ) (nowMs : ℕ)
    (env : BmpEnv) (m : MpuSample) (b : BiasModel) : SensorReading :=
  let temperature := if env.bmp_ok then env.temperature else 0
  let pressure := if env.bmp_ok then env.pressurePa / 100 else 0
  let altitude := if env.bmp_ok then env.altitude else 0
  let corrAx := m.accX - b.accOffX
  let corrAy := m.accY - b.accOffY
  let corrAz := m.accZ - b.accOffZ
  let angleX := atan2 corrAy corrAz * 180 / PI_F
  let angleY := atan2 (-corrAx) (sqrtf (corrAy * corrAy + corrAz * corrAz)) * 180 / PI_F
  { esp_ms := nowMs, temperature := temperature, pressure := pressure,
    altitude := altitude, angleX := angleX, angleY := angleY,
    angleZ := m.angleZ, accX := corrAx, accY := corrAy, accZ := corrAz }

/-- The `/data` JSON body as its ordered field/value pairs. -/
def dataJson (r : SensorReading) : List (String × ℚ) :=
  [ ("ESP_ms", (r.esp_ms : ℚ)),
    ("Temperature_C", r.temperature),
    ("Pressure_hPa", r.pressure),
    ("Altitude_m", r.altitude),
    ("AngleX", r.angleX),
    ("AngleY", r.angleY),
    ("AngleZ", r.angleZ),
    ("AccX_g", r.accX),
    ("AccY_g", r.accY),
    ("AccZ_g", r.accZ) ]

/-- A write to the LCD: the alert overlay, the immediate telemetry restore
on a falling edge, or the timed periodic telemetry refresh. -/
inductive DispEvent where
  | alertMsg
  | restoreTelemetry
  | periodicTelemetry
deriving DecidableEq, Repr

/-- LCD arbiter state: `lastIrActive` and the `lcd_last` refresh stamp. -/
structure LcdState where
  lastIrActive : Bool
  lcd_last : ℕ
deriving DecidableEq, Repr

/-- End of `setup()`: `lastIrActive` is initialized from the IR pin and the
matching screen is drawn once. -/
def setupDisplay (ir0 : Bool) : LcdState × List DispEvent :=
  (⟨ir0, 0⟩, [if ir0 then DispEvent.alertMsg else DispEvent.restoreTelemetry])

/-- One `loop()` iteration, restricted to its LCD behaviour: on an IR edge
show the alert (rising) or restore telemetry (falling) and record the new
state; then, only when the IR is inactive and `LCD_UPDATE_MS` elapsed,
do the periodic telemetry refresh. -/
def loopTick (ir : Bool) (nowMs : ℕ) (st : LcdState) : LcdState × List DispEvent :=
  let p :=
    if ir != st.lastIrActive then
      ({ st with lastIrActive := ir },
       [if ir then DispEvent.alertMsg else DispEvent.restoreTelemetry])
    else (st, [])
  if ir = false ∧ nowMs - p.1.lcd_last > 1000 then
    ({ p.1 with lcd_last := nowMs }, p.2 ++ [DispEvent.periodicTelemetry])
  else p

/-- Iterate `loopTick` over a list of (IR input, millis) ticks, collecting
each tick's display writes. -/
def runTicks (inputs : List (Bool × ℕ)) (st : LcdState) :
    LcdState × List (List DispEvent) :=
  match inputs with
  | [] => (st, [])
  | (ir, t) :: rest =>
      let p := loopTick ir t st
      let q := runTicks rest p.1
      (q.1, p.2 :: q.2)

/-- Display writes issued by the edge logic (not the periodic refresh). -/
def isTransitionEvent : DispEvent → Bool
  | .periodicTelemetry => false
  | _ => true

/-- Preferences operations that write a value. -/
def isPrefWrite : PrefOp → Bool
  | .putFloat _ _ => true
  | .putBool _ _ => true
  | _ => false

/-- Whether an operation writes the `"ok"` presence marker. -/
def isOkMarkerWrite : PrefOp → Bool
  | .putBool k _ => k = "ok"
  | _ => false

theorem list_sum_map_const (f : RawSample → ℚ) (c : ℚ) :
    ∀ l : List RawSample, (∀ s ∈ l, f s = c) → (l.map f).sum = l.length * c
  | [], _ => by simp
  | x :: t, h => by
      have ih := list_sum_map_const f c t (fun s hs => h s (List.mem_cons_of_mem _ hs))
      simp only [List.map_cons, List.sum_cons, List.length_cons]
      rw [ih, h x (List.mem_cons_self _ _)]
      push_cast
      ring

theorem abs_list_sum_map_lt (f : RawSample → ℚ) (c : ℚ) :
    ∀ l : List RawSample, l ≠ [] → (∀ s ∈ l, |f s| < c) →
      |(l.map f).sum| < c * l.length
  | [], hne, _ => absurd rfl hne
  | [x], _, h => by simpa using h x (List.mem_cons_self _ _)
  | x :: y :: t, _, h => by
      have ih := abs_list_sum_map_lt f c (y :: t) (by simp)
        (fun s hs => h s (List.mem_cons_of_mem _ hs))
      have hx := h x (List.mem_cons_self _ _)
      have habs : |f x + ((y :: t).map f).sum| ≤ |f x| + |((y :: t).map f).sum| :=
        abs_add _ _
      have hlen : (((x :: y :: t).length : ℕ) : ℚ) = (((y :: t).length : ℕ) : ℚ) + 1 := by
        push_cast [List.length_cons]
        ring
      calc |((x :: y :: t).map f).sum| = |f x + ((y :: t).map f).sum| := by simp
        _ ≤ |f x| + |((y :: t).map f).sum| := habs
        _ < c + c * ((y :: t).length : ℚ) := by linarith
        _ = c * ((x :: y :: t).length : ℚ) := by rw [hlen]; ring

theorem abs_list_mean_lt (f : RawSample → ℚ) (c : ℚ) (l : List RawSample)
    (hne : l ≠ []) (h : ∀ s ∈ l, |f s| < c) :
    |(l.map f).sum / (l.length : ℚ)| < c := by
  have hlen : (0 : ℚ) < (l.length : ℚ) := by
    exact_mod_cast List.length_pos.mpr hne
  have hs := abs_list_sum_map_lt f c l hne h
  rw [abs_div, abs_of_pos hlen, div_lt_iff₀ hlen]
  linarith

/-- C1: the calibration offsets are the per-channel means of the raw
samples, with the expected vector (0, 0, +1) g subtracted on the
accelerometer channels and the gyroscope means taken directly; hence a
window in which every sample reads exactly (0,0,1) yields zero
accelerometer offsets. -/
theorem calib_bias_eq_mean_minus_expected (samples : List RawSample) (st : GlobalState) :
    ((doAveragingCalibration samples st).2.2.accOffX
        = (samples.map RawSample.ax).sum / (samples.length : ℚ) - 0 ∧
     (doAveragingCalibration samples st).2.2.accOffY
        = (samples.map RawSample.ay).sum / (samples.length : ℚ) - 0 ∧
     (doAveragingCalibration samples st).2.2.accOffZ
        = (samples.map RawSample.az).sum / (samples.length : ℚ) - 1 ∧
     (doAveragingCalibration samples st).2.2.gyrOffX
        = (samples.map RawSample.gx).sum / (samples.length : ℚ) ∧
     (doAveragingCalibration samples st).2.2.gyrOffY
        = (samples.map RawSample.gy).sum / (samples.length : ℚ) ∧
     (doAveragingCalibration samples st).2.2.gyrOffZ
        = (samples.map RawSample.gz).sum / (samples.length : ℚ)) ∧
    (samples ≠ [] →
      (∀ s ∈ samples, s.ax = 0 ∧ s.ay = 0 ∧ s.az = 1) →
      (doAveragingCalibration samples st).2.2.accOffX = 0 ∧
      (doAveragingCalibration samples st).2.2.accOffY = 0 ∧
      (doAveragingCalibration samples st).2.2.accOffZ = 0) := by
  constructor
  · exact ⟨rfl, rfl, rfl, rfl, rfl, rfl⟩
  · intro hne hall
    have hlen : ((samples.length : ℕ) : ℚ) ≠ 0 := by
      have := List.length_pos.mpr hne
      positivity
    have hx : (samples.map RawSample.ax).sum = 0 := by
      apply List.sum_eq_zero
      intro v hv
      obtain ⟨s, hs, rfl⟩ := List.mem_map.mp hv
      exact (hall s hs).1
    have hy : (samples.map RawSample.ay).sum = 0 := by
      apply List.sum_eq_zero
      intro v hv
      obtain ⟨s, hs, rfl⟩ := List.mem_map.mp hv
      exact (hall s hs).2.1
    have hz : (samples.map RawSample.az).sum = samples.length * 1 :=
      list_sum_map_const _ _ _ (fun s hs => (hall s hs).2.2)
    refine ⟨?_, ?_, ?_⟩ <;>
      simp [doAveragingCalibration, hx, hy, hz, mul_one, div_self hlen]

/-- C2: whenever the mean accelerometer Z channel has absolute value below
0.5 g (in particular whenever every sample in the window does), the
calibrate handler reports `ok:false` and leaves the globals, including the
six active offsets, exactly as they were. -/
theorem calibrate_invalid_orientation_no_mutation (samples : List RawSample)
    (st : GlobalState) :
    ((|(samples.map RawSample.az).sum / (samples.length : ℚ)| < 1/2) →
       (handleCalibrate samples st).1 = st ∧
       (handleCalibrate samples st).2.ok = false) ∧
    (samples ≠ [] → (∀ s ∈ samples, |s.az| < 1/2) →
       (handleCalibrate samples st).1 = st ∧
       (handleCalibrate samples st).2.ok = false) := by
  have main : (|(samples.map RawSample.az).sum / (samples.length : ℚ)| < 1/2) →
      (handleCalibrate samples st).1 = st ∧
      (handleCalibrate samples st).2.ok = false := by
    intro hmean
    have hok : (doAveragingCalibration samples st).2.1 = false := by
      simp only [doAveragingCalibration, if_pos hmean]
    have h1 : (doAveragingCalibration samples st).1 = st := rfl
    constructor <;> simp [handleCalibrate, hok, h1]
  exact ⟨main, fun hne hall => main (abs_list_mean_lt RawSample.az (1/2) samples hne hall)⟩

/-- C3: `readSensors` subtracts the stored bias from each raw accelerometer
axis, derives `angleX` and `angleY` from the corrected components via
`atan2` (converted to degrees by multiplying with 180/PI), and passes the
fused `angleZ` through without bias correction. -/
theorem readSensors_correction_and_tilt (atan2 : ℚ → ℚ → ℚ) (sqrtf : ℚ → ℚ)
    (nowMs : ℕ) (env : BmpEnv) (m : MpuSample) (b : BiasModel) :
    (readSensors atan2 sqrtf nowMs env m b).accX = m.accX - b.accOffX ∧
    (readSensors atan2 sqrtf nowMs env m b).accY = m.accY - b.accOffY ∧
    (readSensors atan2 sqrtf nowMs env m b).accZ = m.accZ - b.accOffZ ∧
    (readSensors atan2 sqrtf nowMs env m b).angleX
      = atan2 (m.accY - b.accOffY) (m.accZ - b.accOffZ) * 180 / PI_F ∧
    (readSensors atan2 sqrtf nowMs env m b).angleY
      = atan2 (-(m.accX - b.accOffX))
          (sqrtf ((m.accY - b.accOffY) * (m.accY - b.accOffY)
                  + (m.accZ - b.accOffZ) * (m.accZ - b.accOffZ))) * 180 / PI_F ∧
    (readSensors atan2 sqrtf nowMs env m b).angleZ = m.angleZ :=
  ⟨rfl, rfl, rfl, rfl, rfl, rfl⟩

/-- C4 counterexample: with the environmental sensor absent the snapshot
(and the `/data` field list derived from it) is bit-identical to the one
produced with the sensor present and reading zero on every channel, so no
`unavailable` indicator reaches the caller and the two situations cannot
be distinguished. -/
theorem env_unavailable_indistinguishable_from_zero :
    readSensors (fun y x => y + x) (fun x => x) 42
        { bmp_ok := false, temperature := 7, pressurePa := 7, altitude := 7 }
        { accX := 1/10, accY := 1/5, accZ := 9/10, angleZ := 5 } defaultBias
      = readSensors (fun y x => y + x) (fun x => x) 42
        { bmp_ok := true, temperature := 0, pressurePa := 0, altitude := 0 }
        { accX := 1/10, accY := 1/5, accZ := 9/10, angleZ := 5 } defaultBias ∧
    dataJson (readSensors (fun y x => y + x) (fun x => x) 42
        { bmp_ok := false, temperature := 7, pressurePa := 7, altitude := 7 }
        { accX := 1/10, accY := 1/5, accZ := 9/10, angleZ := 5 } defaultBias)
      = dataJson (readSensors (fun y x => y + x) (fun x => x) 42
        { bmp_ok := true, temperature := 0, pressurePa := 0, altitude := 0 }
        { accX := 1/10, accY := 1/5, accZ := 9/10, angleZ := 5 } defaultBias) := by
  constructor <;> simp [readSensors, dataJson]

/-- C4 (amended): when the environmental sensor is unavailable the three
environmental fields of the snapshot are zero, but no availability
indicator is surfaced: the snapshot equals the one a present-and-all-zero
sensor would produce. -/
theorem env_unavailable_fields_zero (atan2 : ℚ → ℚ → ℚ) (sqrtf : ℚ → ℚ)
    (nowMs : ℕ) (env : BmpEnv) (m : MpuSample) (b : BiasModel)
    (h : env.bmp_ok = false) :
    (readSensors atan2 sqrtf nowMs env m b).temperature = 0 ∧
    (readSensors atan2 sqrtf nowMs env m b).pressure = 0 ∧
    (readSensors atan2 sqrtf nowMs env m b).altitude = 0 ∧
    readSensors atan2 sqrtf nowMs env m b
      = readSensors atan2 sqrtf nowMs
          { bmp_ok := true, temperature := 0, pressurePa := 0, altitude := 0 } m b := by
  refine ⟨?_, ?_, ?_, ?_⟩ <;> simp [readSensors, h]

theorem env_unavailable_fields_zero_witness :
    (readSensors (fun y x => y + x) (fun x => x) 0
        { bmp_ok := false, temperature := 3, pressurePa := 4, altitude := 5 }
        { accX := 0, accY := 0, accZ := 1, angleZ := 0 } defaultBias).temperature = 0 ∧
    (readSensors (fun y x => y + x) (fun x => x) 0
        { bmp_ok := false, temperature := 3, pressurePa := 4, altitude := 5 }
        { accX := 0, accY := 0, accZ := 1, angleZ := 0 } defaultBias).pressure = 0 ∧
    (readSensors (fun y x => y + x) (fun x => x) 0
        { bmp_ok := false, temperature := 3, pressurePa := 4, altitude := 5 }
        { accX := 0, accY := 0, accZ := 1, angleZ := 0 } defaultBias).altitude = 0 ∧
    readSensors (fun y x => y + x) (fun x => x) 0
        { bmp_ok := false, temperature := 3, pressurePa := 4, altitude := 5 }
        { accX := 0, accY := 0, accZ := 1, angleZ := 0 } defaultBias
      = readSensors (fun y x => y + x) (fun x => x) 0
        { bmp_ok := true, temperature := 0, pressurePa := 0, altitude := 0 }
        { accX := 0, accY := 0, accZ := 1, angleZ := 0 } defaultBias :=
  env_unavailable_fields_zero (fun y x => y + x) (fun x => x) 0
    { bmp_ok := false, temperature := 3, pressurePa := 4, altitude := 5 }
    { accX := 0, accY := 0, accZ := 1, angleZ := 0 } defaultBias rfl

/-- C5: one save emits, under namespace "mpu", exactly the writes
ax, ay, az, gx, gy, gz and then the presence marker "ok" as the last
write; no marker write occurs before the six scalar fields. -/
theorem save_writes_fields_then_marker (b : BiasModel) :
    saveOffsetsTrace b =
      [ PrefOp.beginNs "mpu" false,
        PrefOp.putFloat "ax" b.accOffX,
        PrefOp.putFloat "ay" b.accOffY,
        PrefOp.putFloat "az" b.accOffZ,
        PrefOp.putFloat "gx" b.gyrOffX,
        PrefOp.putFloat "gy" b.gyrOffY,
        PrefOp.putFloat "gz" b.gyrOffZ,
        PrefOp.putBool "ok" true,
        PrefOp.endNs ] ∧
    (saveOffsetsTrace b).filter isPrefWrite =
      [ PrefOp.putFloat "ax" b.accOffX,
        PrefOp.putFloat "ay" b.accOffY,
        PrefOp.putFloat "az" b.accOffZ,
        PrefOp.putFloat "gx" b.gyrOffX,
        PrefOp.putFloat "gy" b.gyrOffY,
        PrefOp.putFloat "gz" b.gyrOffZ,
        PrefOp.putBool "ok" true ] ∧
    ((saveOffsetsTrace b).filter isPrefWrite).getLast?
      = some (PrefOp.putBool "ok" true) ∧
    (((saveOffsetsTrace b).filter isPrefWrite).dropLast.all
      fun op => ! isOkMarkerWrite op) = true :=
  ⟨rfl, rfl, rfl, rfl⟩

/-- C6: when the presence marker "ok" is absent or stored false, the load
leaves the whole global state (offsets and `offsetsLoaded`) untouched and
reads no offset key: only "ok" is read; on the first-boot state the
offsets stay at the compiled-in defaults. -/
theorem load_without_marker_is_noop (st : GlobalState)
    (h : st.store.ok = none ∨ st.store.ok = some false) :
    loadOffsetsFromPrefs st = st ∧
    loadReadTrace st.store = ["ok"] ∧
    (loadOffsetsFromPrefs (bootState emptyStore)).bias = defaultBias ∧
    (loadOffsetsFromPrefs (bootState emptyStore)).offsetsLoaded = false := by
  have hok : st.store.ok.getD false = false := by
    rcases h with h | h <;> simp [h]
  exact ⟨by simp [loadOffsetsFromPrefs, hok], by simp [loadReadTrace, hok], rfl, rfl⟩

theorem load_without_marker_witness :
    loadOffsetsFromPrefs (bootState emptyStore) = bootState emptyStore ∧
    loadReadTrace (bootState emptyStore).store = ["ok"] :=
  ⟨(load_without_marker_is_noop (bootState emptyStore) (Or.inl rfl)).1,
   (load_without_marker_is_noop (bootState emptyStore) (Or.inl rfl)).2.1⟩

/-- C7: saving the current offsets and then loading from the resulting
store (from any in-memory state) recovers exactly the saved bias model,
sets `offsetsLoaded`, and the presence marker reads true. -/
theorem save_then_load_roundtrip (st stB : GlobalState) :
    (loadOffsetsFromPrefs { stB with store := (saveOffsetsToPrefs st).store }).bias
      = st.bias ∧
    (loadOffsetsFromPrefs { stB with store := (saveOffsetsToPrefs st).store }).offsetsLoaded
      = true ∧
    (saveOffsetsToPrefs st).store.ok = some true := by
  have hstore : (saveOffsetsToPrefs st).store =
      { ax := some st.bias.accOffX, ay := some st.bias.accOffY,
        az := some st.bias.accOffZ, gx := some st.bias.gyrOffX,
        gy := some st.bias.gyrOffY, gz := some st.bias.gyrOffZ,
        ok := some true } := by
    simp [saveOffsetsToPrefs, saveOffsetsTrace, applyPrefOp]
  refine ⟨?_, ?_, ?_⟩ <;> simp [hstore, loadOffsetsFromPrefs]

/-- C8: the calibration engine returns the ambient globals untouched (all
six active offsets identical before and after); only `handleCalibrate`
installs the returned model, and only when the engine reports success. -/
theorem engine_frame_and_caller_swap (samples : List RawSample) (st : GlobalState) :
    (doAveragingCalibration samples st).1 = st ∧
    ((doAveragingCalibration samples st).2.1 = false →
       (handleCalibrate samples st).1 = st) ∧
    ((doAveragingCalibration samples st).2.1 = true →
       (handleCalibrate samples st).1
         = saveOffsetsToPrefs { st with bias := (doAveragingCalibration samples st).2.2 }) := by
  have h1 : (doAveragingCalibration samples st).1 = st := rfl
  refine ⟨h1, ?_, ?_⟩
  · intro hok
    simp [handleCalibrate, hok, h1]
  · intro hok
    simp [handleCalibrate, hok, h1]

theorem engine_frame_and_caller_swap_witness :
    (doAveragingCalibration [⟨0, 0, 1, 0, 0, 0⟩] (bootState emptyStore)).1
      = bootState emptyStore ∧
    (handleCalibrate [⟨0, 0, 1, 0, 0, 0⟩] (bootState emptyStore)).1
      = saveOffsetsToPrefs { bootState emptyStore with
          bias := (doAveragingCalibration [⟨0, 0, 1, 0, 0, 0⟩] (bootState emptyStore)).2.2 } :=
  ⟨(engine_frame_and_caller_swap [⟨0, 0, 1, 0, 0, 0⟩] (bootState emptyStore)).1,
   (engine_frame_and_caller_swap [⟨0, 0, 1, 0, 0, 0⟩] (bootState emptyStore)).2.2
     (by norm_num [doAveragingCalibration])⟩

/-- C9: the LCD arbiter is edge-triggered: a tick with the alert input
equal to the stored state and the alert asserted performs no display write
and leaves the state unchanged; the edge-logic writes of a tick are
exactly one alert render on a rising edge and one telemetry restore on a
falling edge; the startup state is taken from the alert input; and on the
input sequence 0,0,1,1,0 the writes are exactly the alert render at tick 3
and the telemetry restore at tick 5, with none at the consecutive
asserted tick 4. -/
theorem display_arbiter_edge_triggered :
    (∀ ir nowMs st, st.lastIrActive = true → ir = true →
       loopTick ir nowMs st = (st, [])) ∧
    (∀ ir nowMs st,
       ((loopTick ir nowMs st).2.filter isTransitionEvent)
         = (if ir = st.lastIrActive then []
            else [if ir then DispEvent.alertMsg else DispEvent.restoreTelemetry])) ∧
    (∀ ir0, (setupDisplay ir0).1.lastIrActive = ir0) ∧
    (runTicks [(false, 20), (false, 40), (true, 60), (true, 80), (false, 100)]
        (setupDisplay false).1).2
      = [[], [], [DispEvent.alertMsg], [], [DispEvent.restoreTelemetry]] := by
  refine ⟨?_, ?_, ?_, ?_⟩
  · intro ir nowMs st h1 h2
    simp [loopTick, h1, h2]
  · intro ir nowMs st
    obtain ⟨li, ll⟩ := st
    cases ir <;> cases li <;>
      simp [loopTick, isTransitionEvent] <;>
      split <;> simp [isTransitionEvent]
  · intro ir0
    rfl
  · decide

theorem display_arbiter_edge_triggered_witness :
    loopTick true 999 ⟨true, 0⟩ = (⟨true, 0⟩, []) :=
  display_arbiter_edge_triggered.1 true 999 ⟨true, 0⟩ rfl rfl

/-- C10: the gyroscope offsets are dead state at the sensor-reading
interface: two runs of `readSensors` with identical sensor inputs and
identical accelerometer offsets, but arbitrary gyroscope offsets, produce
the same snapshot (fused `angleZ` included) and the same `/data` field
list. -/
theorem gyro_offsets_dead_state (atan2 : ℚ → ℚ → ℚ) (sqrtf : ℚ → ℚ)
    (nowMs : ℕ) (env : BmpEnv) (m : MpuSample) (b1 b2 : BiasModel)
    (hx : b1.accOffX = b2.accOffX) (hy : b1.accOffY = b2.accOffY)
    (hz : b1.accOffZ = b2.accOffZ) :
    readSensors atan2 sqrtf nowMs env m b1 = readSensors atan2 sqrtf nowMs env m b2 ∧
    dataJson (readSensors atan2 sqrtf nowMs env m b1)
      = dataJson (readSensors atan2 sqrtf nowMs env m b2) := by
  have h : readSensors atan2 sqrtf nowMs env m b1
      = readSensors atan2 sqrtf nowMs env m b2 := by
    unfold readSensors
    rw [hx, hy, hz]
  exact ⟨h, by rw [h]⟩

theorem gyro_offsets_dead_state_witness :
    readSensors (fun y x => y + x) (fun x => x) 0
        { bmp_ok := true, temperature := 1, pressurePa := 2, altitude := 3 }
        { accX := 0, accY := 0, accZ := 1, angleZ := 77 } defaultBias
      = readSensors (fun y x => y + x) (fun x => x) 0
        { bmp_ok := true, temperature := 1, pressurePa := 2, altitude := 3 }
        { accX := 0, accY := 0, accZ := 1, angleZ := 77 }
        { defaultBias with gyrOffX := 100, gyrOffY := -7, gyrOffZ := 0 } :=
  (gyro_offsets_dead_state (fun y x => y + x) (fun x => x) 0
    { bmp_ok := true, temperature := 1, pressurePa := 2, altitude := 3 }
    { accX := 0, accY := 0, accZ := 1, angleZ := 77 } defaultBias
    { defaultBias with gyrOffX := 100, gyrOffY := -7, gyrOffZ := 0 }
    rfl rfl rfl).1

theorem calib_bias_eq_mean_minus_expected_witness :
    (doAveragingCalibration [⟨0, 0, 1, 2, 3, 4⟩, ⟨0, 0, 1, 0, 0, 0⟩]
        (bootState emptyStore)).2.2.accOffX = 0 ∧
    (doAveragingCalibration [⟨0, 0, 1, 2, 3, 4⟩, ⟨0, 0, 1, 0, 0, 0⟩]
        (bootState emptyStore)).2.2.accOffY = 0 ∧
    (doAveragingCalibration [⟨0, 0, 1, 2, 3, 4⟩, ⟨0, 0, 1, 0, 0, 0⟩]
        (bootState emptyStore)).2.2.accOffZ = 0 :=
  (calib_bias_eq_mean_minus_expected [⟨0, 0, 1, 2, 3, 4⟩, ⟨0, 0, 1, 0, 0, 0⟩]
      (bootState emptyStore)).2
    (by simp) (by decide)

theorem calibrate_invalid_orientation_no_mutation_witness :
    (handleCalibrate [⟨0, 0, 1/4, 0, 0, 0⟩] (bootState emptyStore)).1
      = bootState emptyStore ∧
    (handleCalibrate [⟨0, 0, 1/4, 0, 0, 0⟩] (bootState emptyStore)).2.ok = false :=
  (calibrate_invalid_orientation_no_mutation [⟨0, 0, 1/4, 0, 0, 0⟩]
      (bootState emptyStore)).2
    (by simp) (by norm_num [abs_lt])
